import Mathlib

/-!
Verification of the EDPMT dispatch/transport core and hardware simulators.

The definitions below are a shallow embedding of the Python sources:
  * `edpmt/transparent.py` — message envelope, universal `execute`,
    default hardware handler, HTTP and WebSocket request handlers, stats;
  * `hardware.py` — the legacy simulator bank (`I2CSimulator`,
    `UARTSimulator`, `SPISimulator`);
  * `edpmt/hardware/i2c_simulator.py`, `edpmt/hardware/uart_simulator.py` —
    the package simulator bank;
  * `edpmt/hardware/factory.py` — `HardwareInterfaceFactory`.

Python `bytes` values are `List Nat` (each element < 256), dicts are
association lists or explicit functions, wall-clock time is a `Nat` count
of microseconds (`int(time.time() * 1000000)`), exceptions are `Except`,
and the random generator / real clock are passed in as explicit oracles.
-/

namespace EDPMT

/-- Universe of Python values that flow through the dispatch layer. -/
inductive PyValue where
  | none
  | bool (b : Bool)
  | int (n : Int)
  | str (s : String)
  | bytes (bs : List Nat)
  | list (xs : List PyValue)

/-- Python dict lookup on an association list (`params.get(key)`). -/
def paramsGet : List (String × PyValue) → String → Option PyValue
  | [], _ => Option.none
  | (k, v) :: rest, key => if k = key then some v else paramsGet rest key

/-- Python `params.get(key, default)`. -/
def paramsGetD (ps : List (String × PyValue)) (key : String) (dflt : PyValue) : PyValue :=
  (paramsGet ps key).getD dflt

/-- Python `params[key]`: raises `KeyError` when the key is absent.
(`str` of a Python `KeyError` is the quoted key; the exact rendering is
irrelevant to the claims, only that an exception escapes.) -/
def requireParam (ps : List (String × PyValue)) (key : String) : Except String PyValue :=
  match paramsGet ps key with
  | some v => .ok v
  | _ => .error ("KeyError: " ++ key)

/-! ### Envelope id generation (`Message._generate_id`)

`f"{int(time.time() * 1000000):x}"`: lowercase hex of the microsecond
wall-clock reading, no zero padding, `0` rendered as `"0"`. -/

/-- Little-endian base-16 digits, fuel-indexed so that it is structural. -/
def hexAux : Nat → Nat → List Nat
  | 0, _ => []
  | fuel + 1, n => if n = 0 then [] else n % 16 :: hexAux fuel (n / 16)

/-- Little-endian hex digits of `n` (empty for 0). -/
def pyHexLE (n : Nat) : List Nat := hexAux n n

/-- Big-endian hex digit values of `n` exactly as Python `"%x"` renders them:
most significant digit first and `0` rendered as the single digit `0`. -/
def pyHexBE (n : Nat) : List Nat := if n = 0 then [0] else (pyHexLE n).reverse

/-- The character Python uses for one lowercase hex digit. -/
def hexDigitChar (d : Nat) : Char :=
  if d < 10 then Char.ofNat (48 + d) else Char.ofNat (87 + d)

/-- Characters of `f"{n:x}"`. -/
def genIdChars (n : Nat) : List Char := (pyHexBE n).map hexDigitChar

/-- `Message._generate_id` at microsecond reading `nowUs`. -/
def generateId (nowUs : Nat) : String := String.mk (genIdChars nowUs)

/-- Python string comparison `a <= b`: lexicographic on code points,
a proper prefix compares as smaller. -/
def pyStrLE : List Char → List Char → Bool
  | [], _ => true
  | _ :: _, [] => false
  | a :: as, b :: bs =>
    if a.toNat < b.toNat then true
    else if b.toNat < a.toNat then false
    else pyStrLE as bs

/-- Lexicographic comparison on digit-value lists (same shape as `pyStrLE`). -/
def digitLE : List Nat → List Nat → Bool
  | [], _ => true
  | _ :: _, [] => false
  | a :: as, b :: bs =>
    if a < b then true
    else if b < a then false
    else digitLE as bs

/-! ### The message envelope (`@dataclass Message`) -/

/-- `Message` after `__post_init__` has run: every field is populated. -/
structure Message where
  action : String
  target : String
  params : List (String × PyValue)
  id : String
  timestamp : Nat

/-- Constructing a `Message` with optional `params`/`id`/`timestamp`;
`__post_init__` fills `params = {}`, `id = _generate_id()`,
`timestamp = time.time()` (modelled in microseconds). -/
def mkMessage (nowUs : Nat) (action target : String)
    (params : Option (List (String × PyValue)))
    (id : Option String) (timestamp : Option Nat) : Message :=
  { action := action
    target := target
    params := params.getD []
    id := id.getD (generateId nowUs)
    timestamp := timestamp.getD nowUs }

/-- A decoded JSON object about to be passed to `Message(**data)`:
the five recognised keys, each possibly absent, plus any unrecognised keys. -/
structure RawDict where
  action : Option String
  target : Option String
  params : Option (List (String × PyValue))
  id : Option String
  timestamp : Option Nat
  extraKeys : List String

/-- `Message(**data)`: a `TypeError` escapes if the dict carries a keyword
the dataclass does not declare, or omits `action`/`target`; otherwise the
dataclass is built and `__post_init__` fills the defaults. -/
def Message.fromDict (nowUs : Nat) (d : RawDict) : Except String Message :=
  match d.extraKeys with
  | k :: _ => .error ("TypeError: unexpected keyword argument " ++ k)
  | [] =>
    match d.action, d.target with
    | some a, some t => .ok (mkMessage nowUs a t d.params d.id d.timestamp)
    | _, _ => .error "TypeError: missing required argument"

/-! ### Server statistics (`self.stats`) -/

structure Stats where
  messagesSent : Nat
  messagesReceived : Nat
  errors : Nat
  deriving DecidableEq

def stats0 : Stats := ⟨0, 0, 0⟩

/-! ### The live hardware interface as an oracle

`EDPMTransparent` delegates to `self._gpio` / `self._i2c` / `self._spi` /
`self._uart`, whose methods may raise. We model the (already initialized)
interfaces as a record of functions returning `Except`: `.error` is an
exception raised by the interface. Arguments are passed as `PyValue`
because Python performs no checking at the call boundary. -/
structure HWOracle where
  gpioSet : PyValue → PyValue → Except String Unit
  gpioGet : PyValue → Except String PyValue
  gpioPwm : PyValue → PyValue → PyValue → Except String Unit
  i2cScan : Except String (List Nat)
  i2cRead : PyValue → PyValue → PyValue → Except String (List Nat)
  i2cWrite : PyValue → PyValue → PyValue → Except String Unit
  spiTransfer : PyValue → PyValue → PyValue → Except String (List Nat)
  uartWrite : PyValue → PyValue → Except String Unit
  uartRead : PyValue → PyValue → Except String (List Nat)

/-! ### Hardware wrapper methods of `EDPMTransparent`

Each wraps the interface call in `try/except`, logs, bumps
`self.stats['errors']` on failure and returns a sentinel value. -/

/-- `EDPMTransparent.gpio_set`. -/
def gpioSetOp (hw : HWOracle) (st : Stats) (pin value : PyValue) : PyValue × Stats :=
  match hw.gpioSet pin value with
  | .ok _ => (.bool true, st)
  | .error _ => (.bool false, { st with errors := st.errors + 1 })

/-- `EDPMTransparent.gpio_get`: returns the pin value, or `-1` on exception. -/
def gpioGetOp (hw : HWOracle) (st : Stats) (pin : PyValue) : PyValue × Stats :=
  match hw.gpioGet pin with
  | .ok v => (v, st)
  | .error _ => (.int (-1), { st with errors := st.errors + 1 })

/-- `EDPMTransparent.gpio_pwm`. -/
def gpioPwmOp (hw : HWOracle) (st : Stats) (pin freq duty : PyValue) : PyValue × Stats :=
  match hw.gpioPwm pin freq duty with
  | .ok _ => (.bool true, st)
  | .error _ => (.bool false, { st with errors := st.errors + 1 })

/-- `EDPMTransparent.i2c_scan`: device list, or `[]` on exception. -/
def i2cScanOp (hw : HWOracle) (st : Stats) : PyValue × Stats :=
  match hw.i2cScan with
  | .ok ds => (.list (ds.map fun d => .int d), st)
  | .error _ => (.list [], { st with errors := st.errors + 1 })

/-- `EDPMTransparent.i2c_read`: data bytes, or `b''` on exception. -/
def i2cReadOp (hw : HWOracle) (st : Stats) (device register length : PyValue) : PyValue × Stats :=
  match hw.i2cRead device register length with
  | .ok bs => (.bytes bs, st)
  | .error _ => (.bytes [], { st with errors := st.errors + 1 })

/-- `EDPMTransparent.i2c_write`. -/
def i2cWriteOp (hw : HWOracle) (st : Stats) (device register data : PyValue) : PyValue × Stats :=
  match hw.i2cWrite device register data with
  | .ok _ => (.bool true, st)
  | .error _ => (.bool false, { st with errors := st.errors + 1 })

/-- `EDPMTransparent.spi_transfer`: response bytes, or `b''` on exception. -/
def spiTransferOp (hw : HWOracle) (st : Stats) (data bus device : PyValue) : PyValue × Stats :=
  match hw.spiTransfer data bus device with
  | .ok bs => (.bytes bs, st)
  | .error _ => (.bytes [], { st with errors := st.errors + 1 })

/-- `EDPMTransparent.uart_write`. -/
def uartWriteOp (hw : HWOracle) (st : Stats) (data port : PyValue) : PyValue × Stats :=
  match hw.uartWrite data port with
  | .ok _ => (.bool true, st)
  | .error _ => (.bool false, { st with errors := st.errors + 1 })

/-- `EDPMTransparent.uart_read`: data bytes, or `b''` on exception. -/
def uartReadOp (hw : HWOracle) (st : Stats) (port length : PyValue) : PyValue × Stats :=
  match hw.uartRead port length with
  | .ok bs => (.bytes bs, st)
  | .error _ => (.bytes [], { st with errors := st.errors + 1 })

/-! ### `EDPMTransparent._default_handler`

The Python body is an `if target == ... / elif ...` chain with nested
`if action == ...` chains. A known target whose action chain matches
nothing falls off the end of the function and returns `None`; only an
unmatched *target* reaches the trailing
`raise ValueError(f"Unknown target/action: {target}/{action}")`. -/
def defaultHandler (hw : HWOracle) (st : Stats) (msg : Message) :
    Except String (PyValue × Stats) :=
  let target := msg.target
  let action := msg.action
  let params := msg.params
  if target = "gpio" then
    if action = "set" then do
      let pin ← requireParam params "pin"
      let value ← requireParam params "value"
      pure (gpioSetOp hw st pin value)
    else if action = "get" then do
      let pin ← requireParam params "pin"
      pure (gpioGetOp hw st pin)
    else if action = "pwm" then do
      let pin ← requireParam params "pin"
      pure (gpioPwmOp hw st pin
        (paramsGetD params "frequency" (.int 1000))
        (paramsGetD params "duty_cycle" (.int 50)))
    else pure (.none, st)
  else if target = "i2c" then
    if action = "scan" then pure (i2cScanOp hw st)
    else if action = "read" then
      pure (i2cReadOp hw st
        (paramsGetD params "device" .none)
        (paramsGetD params "register" .none)
        (paramsGetD params "length" (.int 1)))
    else if action = "write" then
      pure (i2cWriteOp hw st
        (paramsGetD params "device" .none)
        (paramsGetD params "register" .none)
        (paramsGetD params "data" .none))
    else pure (.none, st)
  else if target = "spi" then
    if action = "transfer" then
      pure (spiTransferOp hw st
        (paramsGetD params "data" .none)
        (paramsGetD params "bus" (.int 0))
        (paramsGetD params "device" (.int 0)))
    else pure (.none, st)
  else if target = "uart" then
    if action = "write" then
      pure (uartWriteOp hw st
        (paramsGetD params "data" .none)
        (paramsGetD params "port" (.str "/dev/ttyUSB0")))
    else if action = "read" then
      pure (uartReadOp hw st
        (paramsGetD params "port" (.str "/dev/ttyUSB0"))
        (paramsGetD params "length" (.int 1)))
    else pure (.none, st)
  else if target = "audio" then
    -- `audio_play` sleeps for `duration` and returns True unconditionally.
    if action = "play" then pure (.bool true, st)
    else pure (.none, st)
  else
    .error ("Unknown target/action: " ++ target ++ "/" ++ action)

/-- `if isinstance(result, bytes): result = list(result)`. -/
def pyJsonResult : PyValue → PyValue
  | .bytes bs => .list (bs.map fun b => .int (b : Int))
  | v => v

/-- `EDPMTransparent.execute` (no custom handlers are ever registered, so
the lookup in `self.handlers` always falls through to `_default_handler`).
On normal return it converts a `bytes` result to a list and bumps both
`messages_sent` and `messages_received`; an exception from the handler
escapes with the stats untouched by this frame. -/
def serverExecute (hw : HWOracle) (st : Stats) (action target : String)
    (params : List (String × PyValue)) (nowUs : Nat) :
    Except String (PyValue × Stats) :=
  let msg := mkMessage nowUs action target (some params) Option.none Option.none
  match defaultHandler hw st msg with
  | .error e => .error e
  | .ok (result, st1) =>
    .ok (pyJsonResult result,
      { st1 with
        messagesSent := st1.messagesSent + 1
        messagesReceived := st1.messagesReceived + 1 })

/-! ### Transport layer: HTTP and WebSocket request handling -/

/-- The JSON body of a transport-level response, together with the HTTP
status where applicable. An absent key is `Option.none`. -/
structure HttpResponse where
  success : Bool
  result : Option PyValue
  error : Option String
  id : Option String
  status : Nat

/-- `EDPMTransparent._handle_http_request`: parse the body into a
`Message`, run `execute`, answer `{'success': True, 'result': …,
'id': message.id}`; any exception is caught and answered as
`{'success': False, 'error': str(e)}` with HTTP 400 — note: without `id`. -/
def handleHttpRequest (hw : HWOracle) (st : Stats) (nowUs : Nat) (d : RawDict) :
    HttpResponse × Stats :=
  match Message.fromDict nowUs d with
  | .error e =>
    ({ success := false, result := Option.none, error := some e,
       id := Option.none, status := 400 }, st)
  | .ok msg =>
    match serverExecute hw st msg.action msg.target msg.params nowUs with
    | .ok (r, st') =>
      ({ success := true, result := some r, error := Option.none,
         id := some msg.id, status := 200 }, st')
    | .error e =>
      ({ success := false, result := Option.none, error := some e,
         id := Option.none, status := 400 }, st)

/-- One iteration of the `_handle_websocket` receive loop: decode with
`Message.from_json`, run `execute`, send `{'success': True, 'result': …,
'id': message.id}`; any exception is caught and `{'success': False,
'error': str(e)}` is sent — again without `id` — and the loop continues. -/
def handleWsMessage (hw : HWOracle) (st : Stats) (nowUs : Nat) (d : RawDict) :
    HttpResponse × Stats :=
  match Message.fromDict nowUs d with
  | .error e =>
    ({ success := false, result := Option.none, error := some e,
       id := Option.none, status := 0 }, st)
  | .ok msg =>
    match serverExecute hw st msg.action msg.target msg.params nowUs with
    | .ok (r, st') =>
      ({ success := true, result := some r, error := Option.none,
         id := some msg.id, status := 0 }, st')
    | .error e =>
      ({ success := false, result := Option.none, error := some e,
         id := Option.none, status := 0 }, st)

/-- The whole WebSocket receive loop over a finite inbound message list:
every message is answered, failures included, and the connection survives
each failure (the `except` is inside the loop body). -/
def wsLoop (hw : HWOracle) (nowUs : Nat) :
    Stats → List RawDict → List HttpResponse × Stats
  | st, [] => ([], st)
  | st, d :: rest =>
    let (resp, st') := handleWsMessage hw st nowUs d
    let (resps, st'') := wsLoop hw nowUs st' rest
    (resp :: resps, st'')

/-! ### Concrete oracles used by closed counterexamples/witnesses -/

/-- An interface bank whose every operation succeeds with a fixed value. -/
def oracleOk : HWOracle where
  gpioSet := fun _ _ => .ok ()
  gpioGet := fun _ => .ok (.int 1)
  gpioPwm := fun _ _ _ => .ok ()
  i2cScan := .ok [0x76, 0x48]
  i2cRead := fun _ _ _ => .ok [0x27]
  i2cWrite := fun _ _ _ => .ok ()
  spiTransfer := fun _ _ _ => .ok [0xAB]
  uartWrite := fun _ _ => .ok ()
  uartRead := fun _ _ => .ok [0x41]

/-- An interface bank whose GPIO read raises (simulating hardware I/O
failure), everything else as in `oracleOk`. -/
def oracleGpioFail : HWOracle :=
  { oracleOk with gpioGet := fun _ => .error "hardware fault" }

/-! ## The legacy simulator bank (`hardware.py`) -/

/-- The fixed virtual-device roster shared by both I2C simulators. -/
def i2cDevices : List Nat := [0x76, 0x48, 0x20, 0x68, 0x3C]

/-- Environment oracles consumed by the simulators: the stream of bytes
`random.randint(0, 255)` would yield, the ADC reading
`random.randint(0, 32767)`, and the local-time fields. -/
structure SimEnv where
  randByte : Nat → Nat
  adcValue : Nat
  tmSec : Nat
  tmMin : Nat
  tmHour : Nat

/-- `I2CSimulator._dec_to_bcd`. -/
def decToBcd (decimal : Nat) : Nat := ((decimal / 10) <<< 4) + decimal % 10

/-- Python `value.to_bytes(2, 'big')` for `value < 65536`. -/
def toBytes2BE (v : Nat) : List Nat := [v / 256 % 256, v % 256]

/-- `hardware.py` `I2CSimulator` state: the `memory` dict keyed by the
string `f"{device:02x}:{register:02x}"`, which is injective in the
`(device, register)` pair, so we key by the pair directly. -/
structure I2CSimState where
  memory : Nat × Nat → Option (List Nat)

def i2cSim0 : I2CSimState := ⟨fun _ => Option.none⟩

/-- `I2CSimulator._generate_device_data`. Note that it consults only the
device/register numbers and the oracles — never `self.memory`. -/
def i2cGenerateDeviceData (env : SimEnv) (device register length : Nat) : List Nat :=
  if device = 0x76 then
    if register = 0xD0 then [0x60]
    else if register = 0xF7 then [0x80, 0x00, 0x00] ++ List.replicate (length - 3) 0
    else (List.range length).map env.randByte
  else if device = 0x48 then
    if register = 0x00 then toBytes2BE env.adcValue
    else (List.range length).map env.randByte
  else if device = 0x68 then
    if register = 0x00 then
      [decToBcd env.tmSec, decToBcd env.tmMin, decToBcd env.tmHour].take length
    else (List.range length).map env.randByte
  else (List.range length).map env.randByte

/-- `I2CSimulator.read`: `OSError` for an unknown device, otherwise the
synthetic `_generate_device_data` — the stored `memory` is ignored and the
state is left untouched. -/
def I2CSimulator.read (_st : I2CSimState) (env : SimEnv)
    (device register length : Nat) : Except String (List Nat) :=
  if device ∈ i2cDevices then .ok (i2cGenerateDeviceData env device register length)
  else .error ("Device " ++ toString device ++ " not found")

/-- `I2CSimulator.write`: `OSError` for an unknown device, otherwise store
the bytes under the `(device, register)` key. -/
def I2CSimulator.write (st : I2CSimState) (device register : Nat) (data : List Nat) :
    Except String I2CSimState :=
  if device ∈ i2cDevices then
    .ok ⟨fun k => if k = (device, register) then some data else st.memory k⟩
  else .error ("Device " ++ toString device ++ " not found")

/-- `hardware.py` `UARTSimulator` buffers: a total map from port name to
buffered bytes (`port not in self.buffers` behaves like the empty buffer). -/
def UARTBuffers := String → List Nat

def uartSim0 : UARTBuffers := fun _ => []

/-- `UARTSimulator.write`: append to the port's buffer (no capacity bound). -/
def UARTSimulator.write (bufs : UARTBuffers) (port : String) (data : List Nat) :
    UARTBuffers :=
  fun p => if p = port then bufs port ++ data else bufs p

/-- `UARTSimulator.read`: if the buffer holds at least `length` bytes, pop
them from the front; otherwise leave the buffer alone and hand back
`length` freshly drawn random bytes. -/
def UARTSimulator.read (bufs : UARTBuffers) (env : SimEnv)
    (port : String) (length : Nat) : List Nat × UARTBuffers :=
  let buffer := bufs port
  if length ≤ buffer.length then
    (buffer.take length, fun p => if p = port then buffer.drop length else bufs p)
  else
    ((List.range length).map env.randByte, bufs)

/-- `SPISimulator.transfer`: `bytes([(b ^ 0xFF) & 0xFF for b in data])` —
stateless, no oracle consulted. -/
def SPISimulator.transfer (data : List Nat) : List Nat :=
  data.map fun b => (b ^^^ 0xFF) &&& 0xFF

/-! ## The package simulator bank (`edpmt/hardware/`) -/

/-- `SimulatedI2CInterface` state: the `is_initialized` flag and the
nested `memory` dict `device → register → bytes`. -/
structure SimI2CState where
  initialized : Bool
  memory : Nat → Nat → Option (List Nat)

def simI2CInit : SimI2CState := ⟨true, fun _ _ => Option.none⟩

/-- `SimulatedI2CInterface._generate_device_data`: stored memory is
consulted first (and used when it holds at least `length` bytes); the
fallback is per-device synthetic data. The DS3231 branch calls
`time.time()` although the module never imports `time`, so reaching it
raises a `NameError`. -/
def simI2CGenerate (st : SimI2CState) (env : SimEnv)
    (device register length : Nat) : Except String (List Nat) :=
  match st.memory device register with
  | some stored =>
    if length ≤ stored.length then .ok (stored.take length)
    else simI2CGenerateFresh env device register length
  | _ => simI2CGenerateFresh env device register length
where
  simI2CGenerateFresh (env : SimEnv) (device register length : Nat) :
      Except String (List Nat) :=
    if device = 0x76 then
      if register = 0xF7 then .ok (([0x5A, 0xF0, 0x00] : List Nat).take length)
      else if register = 0xFA then .ok (([0x08, 0x8E, 0x00] : List Nat).take length)
      else if register = 0xFD then .ok (([0x2D] : List Nat).take length)
      else .ok ((List.range length).map env.randByte)
    else if device = 0x48 then
      .ok ((List.range (min length 2)).map env.randByte)
    else if device = 0x68 then
      if register = 0x00 ∨ register = 0x01 ∨ register = 0x02 then
        .error "NameError: name time is not defined"
      else .ok ((List.range length).map env.randByte)
    else .ok ((List.range length).map env.randByte)

/-- `SimulatedI2CInterface.read`: `b''` when uninitialized or for an
unknown device, otherwise `_generate_device_data`. -/
def SimulatedI2CInterface.read (st : SimI2CState) (env : SimEnv)
    (device register length : Nat) : Except String (List Nat) :=
  if st.initialized = false then .ok []
  else if device ∈ i2cDevices then simI2CGenerate st env device register length
  else .ok []

/-- `SimulatedI2CInterface.write`: the register is the first data byte and
the stored value is the rest; returns `False` (without storing) when
uninitialized, for an unknown device, or for empty data. -/
def SimulatedI2CInterface.write (st : SimI2CState) (device : Nat) (data : List Nat) :
    Bool × SimI2CState :=
  if st.initialized = false then (false, st)
  else if device ∈ i2cDevices then
    match data with
    | [] => (false, st)
    | register :: value =>
      (true,
        { st with memory := fun d r =>
            if d = device ∧ r = register then some value else st.memory d r })
  else (false, st)

/-- `SimulatedUARTInterface` state. -/
structure SimUARTState where
  initialized : Bool
  buffers : String → List Nat

def simUART0 : SimUARTState := ⟨true, fun _ => []⟩

/-- `SimulatedUARTInterface.write`: append, then keep only the last 4096
buffered bytes. -/
def SimulatedUARTInterface.write (st : SimUARTState) (port : String) (data : List Nat) :
    Bool × SimUARTState :=
  if st.initialized = false then (false, st)
  else
    let buf := st.buffers port ++ data
    let buf := if 4096 < buf.length then buf.drop (buf.length - 4096) else buf
    (true, { st with buffers := fun p => if p = port then buf else st.buffers p })

/-- `SimulatedUARTInterface.read`: `b''` when uninitialized or the buffer
is empty; otherwise pop up to `length` bytes from the front. -/
def SimulatedUARTInterface.read (st : SimUARTState) (port : String) (length : Nat) :
    List Nat × SimUARTState :=
  if st.initialized = false then ([], st)
  else if (st.buffers port).length = 0 then ([], st)
  else
    let data := (st.buffers port).take length
    (data,
      { st with buffers := fun p =>
          if p = port then (st.buffers port).drop data.length else st.buffers p })

/-! ## The hardware-interface factory (`edpmt/hardware/factory.py`)

Each `from .x import Y` at module import either binds the class or leaves
the name `None`; each real driver's `initialize()` either succeeds or
raises. Both outcomes are environment facts, passed in as flags. -/

/-- What one wrapper call does to the stats: the message counters are
untouched and `errors` grows by 0 or 1. -/
def StatsStep (st st' : Stats) : Prop :=
  st'.messagesSent = st.messagesSent ∧
  st'.messagesReceived = st.messagesReceived ∧
  st.errors ≤ st'.errors

theorem statsStep_refl (st : Stats) : StatsStep st st :=
  ⟨rfl, rfl, le_refl _⟩

theorem statsStep_bump (st : Stats) :
    StatsStep st { st with errors := st.errors + 1 } :=
  ⟨rfl, rfl, Nat.le_succ _⟩

theorem gpioSetOp_stats (hw : HWOracle) (st : Stats) (pin value : PyValue) :
    StatsStep st (gpioSetOp hw st pin value).2 := by
  unfold gpioSetOp
  cases hw.gpioSet pin value with
  | ok _ => exact statsStep_refl st
  | error _ => exact statsStep_bump st

theorem gpioGetOp_stats (hw : HWOracle) (st : Stats) (pin : PyValue) :
    StatsStep st (gpioGetOp hw st pin).2 := by
  unfold gpioGetOp
  cases hw.gpioGet pin with
  | ok _ => exact statsStep_refl st
  | error _ => exact statsStep_bump st

theorem gpioPwmOp_stats (hw : HWOracle) (st : Stats) (a b c : PyValue) :
    StatsStep st (gpioPwmOp hw st a b c).2 := by
  unfold gpioPwmOp
  cases hw.gpioPwm a b c with
  | ok _ => exact statsStep_refl st
  | error _ => exact statsStep_bump st

theorem i2cScanOp_stats (hw : HWOracle) (st : Stats) :
    StatsStep st (i2cScanOp hw st).2 := by
  unfold i2cScanOp
  cases hw.i2cScan with
  | ok _ => exact statsStep_refl st
  | error _ => exact statsStep_bump st

theorem i2cReadOp_stats (hw : HWOracle) (st : Stats) (a b c : PyValue) :
    StatsStep st (i2cReadOp hw st a b c).2 := by
  unfold i2cReadOp
  cases hw.i2cRead a b c with
  | ok _ => exact statsStep_refl st
  | error _ => exact statsStep_bump st

theorem i2cWriteOp_stats (hw : HWOracle) (st : Stats) (a b c : PyValue) :
    StatsStep st (i2cWriteOp hw st a b c).2 := by
  unfold i2cWriteOp
  cases hw.i2cWrite a b c with
  | ok _ => exact statsStep_refl st
  | error _ => exact statsStep_bump st

theorem spiTransferOp_stats (hw : HWOracle) (st : Stats) (a b c : PyValue) :
    StatsStep st (spiTransferOp hw st a b c).2 := by
  unfold spiTransferOp
  cases hw.spiTransfer a b c with
  | ok _ => exact statsStep_refl st
  | error _ => exact statsStep_bump st

theorem uartWriteOp_stats (hw : HWOracle) (st : Stats) (a b : PyValue) :
    StatsStep st (uartWriteOp hw st a b).2 := by
  unfold uartWriteOp
  cases hw.uartWrite a b with
  | ok _ => exact statsStep_refl st
  | error _ => exact statsStep_bump st

theorem uartReadOp_stats (hw : HWOracle) (st : Stats) (a b : PyValue) :
    StatsStep st (uartReadOp hw st a b).2 := by
  unfold uartReadOp
  cases hw.uartRead a b with
  | ok _ => exact statsStep_refl st
  | error _ => exact statsStep_bump st

/-- Whatever `_default_handler` returns successfully, it has not touched
the message counters and has bumped `errors` at most by wrapper calls. -/
theorem defaultHandler_stats (hw : HWOracle) (st : Stats) (msg : Message)
    (r : PyValue) (st' : Stats)
    (h : defaultHandler hw st msg = .ok (r, st')) : StatsStep st st' := by
  simp only [defaultHandler, bind, Except.bind] at h
  split_ifs at h <;>
    (try split at h) <;>
    (try exact Except.noConfusion h) <;>
    (try split at h) <;>
    (try exact Except.noConfusion h) <;>
    (simp only [pure, Except.pure, Except.ok.injEq] at h
     have h2 := congrArg Prod.snd h
     dsimp only at h2
     subst h2
     first
     | exact statsStep_refl st
     | exact gpioSetOp_stats ..
     | exact gpioGetOp_stats ..
     | exact gpioPwmOp_stats ..
     | exact i2cScanOp_stats ..
     | exact i2cReadOp_stats ..
     | exact i2cWriteOp_stats ..
     | exact spiTransferOp_stats ..
     | exact uartReadOp_stats ..
     | exact uartWriteOp_stats ..)

/-- `execute` bumps both message counters by exactly one on a successful
dispatch, and `errors` only ever grows. -/
theorem serverExecute_stats (hw : HWOracle) (st : Stats) (action target : String)
    (params : List (String × PyValue)) (now : Nat) (r : PyValue) (st' : Stats)
    (h : serverExecute hw st action target params now = .ok (r, st')) :
    st'.messagesSent = st.messagesSent + 1 ∧
    st'.messagesReceived = st.messagesReceived + 1 ∧
    st.errors ≤ st'.errors := by
  simp only [serverExecute] at h
  cases hd : defaultHandler hw st
      (mkMessage now action target (some params) Option.none Option.none) with
  | error e => rw [hd] at h; exact Except.noConfusion h
  | ok p =>
    obtain ⟨r1, st1⟩ := p
    rw [hd] at h
    simp only [Except.ok.injEq] at h
    have hstep := defaultHandler_stats hw st _ r1 st1 hd
    have h2 := congrArg Prod.snd h
    dsimp only at h2
    subst h2
    exact ⟨by simp [hstep.1], by simp [hstep.2.1], hstep.2.2⟩

/-! ## Claim C1 -/

/-- The request body `{"action": "frobnicate", "target": "gpio",
"params": {}, "id": "req-1", "timestamp": 0}`. -/
def c1FrobnicateRequest : RawDict :=
  { action := some "frobnicate", target := some "gpio", params := some [],
    id := some "req-1", timestamp := some 0, extraKeys := [] }

/-- The request body `{"action": "set", "target": "nonexistent", …}`. -/
def c1NonexistentRequest : RawDict :=
  { action := some "set", target := some "nonexistent", params := some [],
    id := some "req-2", timestamp := some 0, extraKeys := [] }

/-- Claim C1, evaluated on the code at the failing input: an unknown
action on the known target `gpio` is NOT rejected — `_default_handler`'s
`action` chain falls off the end of the function, `None` is returned, and
the HTTP layer wraps it as `{'success': True, 'result': None}` with no
error text at all. The other half of the claim does hold: an unknown
target raises `ValueError`, which the HTTP layer catches and returns as a
structured failure whose error string contains the target name, so no
exception reaches the transport. -/
theorem c1_unknown_action_reported_as_success
    (hw : HWOracle) (st : Stats) (now : Nat) :
    ((handleHttpRequest hw st now c1FrobnicateRequest).1.success = true ∧
     (handleHttpRequest hw st now c1FrobnicateRequest).1.result = some PyValue.none ∧
     (handleHttpRequest hw st now c1FrobnicateRequest).1.error = Option.none) ∧
    ((handleHttpRequest hw st now c1NonexistentRequest).1.success = false ∧
     (handleHttpRequest hw st now c1NonexistentRequest).1.error =
       some "Unknown target/action: nonexistent/set" ∧
     "nonexistent".toList <:+: "Unknown target/action: nonexistent/set".toList) := by
  refine ⟨⟨rfl, rfl, rfl⟩, rfl, rfl, ?_⟩
  exact ⟨"Unknown target/action: ".toList, "/set".toList, by decide⟩

/-! ## Claim C2 -/

/-- A failing request that carries the id `"abc123"`. -/
def c2FailingRequest : RawDict :=
  { action := some "set", target := some "nonexistent", params := some [],
    id := some "abc123", timestamp := some 0, extraKeys := [] }

/-- Claim C2 counterexample: a request with id `"abc123"` whose dispatch
fails is answered, on the HTTP path and on the WebSocket path alike, by a
failure body that carries NO id field at all — the claim's "whether
success is true or false" is violated on every failure. -/
theorem c2_counterexample :
    (handleHttpRequest oracleOk stats0 0 c2FailingRequest).1.success = false ∧
    (handleHttpRequest oracleOk stats0 0 c2FailingRequest).1.id = Option.none ∧
    (handleWsMessage oracleOk stats0 0 c2FailingRequest).1.id = Option.none :=
  ⟨rfl, rfl, rfl⟩

/-- Claim C2 (amended): a SUCCESS response echoes the originating
envelope's id on both the HTTP and the WebSocket paths; a failure
response omits the id field on both paths. -/
theorem c2_id_echo (hw : HWOracle) (st : Stats) (now : Nat) (d : RawDict) :
    (∀ msg, Message.fromDict now d = .ok msg →
      ((handleHttpRequest hw st now d).1.success = true →
        (handleHttpRequest hw st now d).1.id = some msg.id) ∧
      ((handleWsMessage hw st now d).1.success = true →
        (handleWsMessage hw st now d).1.id = some msg.id)) ∧
    ((handleHttpRequest hw st now d).1.success = false →
      (handleHttpRequest hw st now d).1.id = Option.none) ∧
    ((handleWsMessage hw st now d).1.success = false →
      (handleWsMessage hw st now d).1.id = Option.none) := by
  cases hf : Message.fromDict now d with
  | error e => simp [handleHttpRequest, handleWsMessage, hf]
  | ok m =>
    cases hx : serverExecute hw st m.action m.target m.params now with
    | ok p =>
      obtain ⟨r, st'⟩ := p
      simp [handleHttpRequest, handleWsMessage, hf, hx]
    | error e => simp [handleHttpRequest, handleWsMessage, hf, hx]

/-- A well-formed gpio read request used to witness `c2_id_echo`. -/
def c2GoodRequest : RawDict :=
  { action := some "get", target := some "gpio",
    params := some [("pin", PyValue.int 18)],
    id := some "w2", timestamp := some 5, extraKeys := [] }

/-- Witness for `c2_id_echo`: a concrete successful gpio read over HTTP
echoes its envelope's id. -/
theorem c2_id_echo_witness :
    (handleHttpRequest oracleOk stats0 5 c2GoodRequest).1.id =
      some (mkMessage 5 "get" "gpio" [("pin", PyValue.int 18)]
        (some "w2") (some 5)).id :=
  ((c2_id_echo oracleOk stats0 5 c2GoodRequest).1 _ rfl).1 rfl

/-! ## Claim C3 -/

/-- A gpio read request dispatched to a failing interface. -/
def c3GpioGetRequest : RawDict :=
  { action := some "get", target := some "gpio",
    params := some [("pin", PyValue.int 18)],
    id := some "r1", timestamp := some 0, extraKeys := [] }

/-- Claim C3 counterexample: with a GPIO interface whose `get` raises,
the HTTP caller receives `{'success': True, 'result': -1}` — the failure
IS reported as a success with the sentinel `-1`, the underlying message is
nowhere in the response, and only the errors counter betrays the fault. -/
theorem c3_counterexample :
    (handleHttpRequest oracleGpioFail stats0 0 c3GpioGetRequest).1.success = true ∧
    (handleHttpRequest oracleGpioFail stats0 0 c3GpioGetRequest).1.result =
      some (PyValue.int (-1)) ∧
    (handleHttpRequest oracleGpioFail stats0 0 c3GpioGetRequest).1.error =
      Option.none ∧
    (handleHttpRequest oracleGpioFail stats0 0 c3GpioGetRequest).2.errors = 1 :=
  ⟨rfl, rfl, rfl, rfl⟩

/-- Claim C3 (amended): when a live interface's call raises during
dispatch, `errors` is incremented and the connection keeps serving (every
queued WebSocket message is still answered), but the caller receives a
SUCCESS response carrying a sentinel result — `-1` for a gpio read, the
empty list for an i2c read — not a failure response with the underlying
message. -/
theorem c3_sentinel_success (hw : HWOracle) (st : Stats) (now : Nat)
    (pin device register length : PyValue) (e1 e2 : String) :
    (hw.gpioGet pin = .error e1 →
      serverExecute hw st "get" "gpio" [("pin", pin)] now =
        .ok (PyValue.int (-1),
          { messagesSent := st.messagesSent + 1,
            messagesReceived := st.messagesReceived + 1,
            errors := st.errors + 1 })) ∧
    (hw.i2cRead device register length = .error e2 →
      serverExecute hw st "read" "i2c"
          [("device", device), ("register", register), ("length", length)] now =
        .ok (PyValue.list [],
          { messagesSent := st.messagesSent + 1,
            messagesReceived := st.messagesReceived + 1,
            errors := st.errors + 1 })) ∧
    (∀ msgs : List RawDict, (wsLoop hw now st msgs).1.length = msgs.length) := by
  refine ⟨fun h => ?_, fun h => ?_, fun msgs => ?_⟩
  · simp [serverExecute, defaultHandler, requireParam, paramsGet, mkMessage,
      gpioGetOp, pyJsonResult, pure, Except.pure, bind, Except.bind, h]
  · simp [serverExecute, defaultHandler, requireParam, paramsGet, paramsGetD,
      mkMessage, i2cReadOp, pyJsonResult, pure, Except.pure, bind, Except.bind, h]
  · induction msgs generalizing st with
    | nil => rfl
    | cons d rest ih => simp [wsLoop, ih]

/-- Witness for `c3_sentinel_success` at the failing oracle and pin 18. -/
theorem c3_sentinel_success_witness :
    serverExecute oracleGpioFail stats0 "get" "gpio"
        [("pin", PyValue.int 18)] 0 =
      .ok (PyValue.int (-1),
        { messagesSent := stats0.messagesSent + 1,
          messagesReceived := stats0.messagesReceived + 1,
          errors := stats0.errors + 1 }) :=
  (c3_sentinel_success oracleGpioFail stats0 0 (PyValue.int 18)
    PyValue.none PyValue.none PyValue.none "hardware fault" "e").1 rfl

/-! ## Claim C6 -/

/-- A request whose target matches no interface. -/
def c6ValidationFailure : RawDict :=
  { action := some "set", target := some "nosuch", params := some [],
    id := some "v1", timestamp := some 0, extraKeys := [] }

/-- Claim C6 counterexample: a validation failure (unknown target) leaves
EVERY counter unchanged — `errors` is not incremented although this is a
failure path, and `messages_received` was not incremented before dispatch
although a request was received. -/
theorem c6_counterexample :
    (handleHttpRequest oracleOk stats0 0 c6ValidationFailure).1.success = false ∧
    (handleHttpRequest oracleOk stats0 0 c6ValidationFailure).2 = stats0 :=
  ⟨rfl, rfl⟩

/-- Claim C6 (amended): `messages_sent` and `messages_received` are
incremented together, both only AFTER a successful dispatch (and `errors`
never decreases); every failure response leaves the stats exactly as they
were — validation and parse failures touch no counter; the only failure
path that increments `errors` is a wrapper catching a raising interface
call. -/
theorem c6_stats_discipline (hw : HWOracle) (st : Stats) (now : Nat)
    (action target : String) (params : List (String × PyValue)) (d : RawDict) :
    (∀ r st', serverExecute hw st action target params now = .ok (r, st') →
      st'.messagesSent = st.messagesSent + 1 ∧
      st'.messagesReceived = st.messagesReceived + 1 ∧
      st.errors ≤ st'.errors) ∧
    ((handleHttpRequest hw st now d).1.success = false →
      (handleHttpRequest hw st now d).2 = st) ∧
    (∀ p v e, hw.gpioSet p v = .error e →
      (gpioSetOp hw st p v).2.errors = st.errors + 1) := by
  refine ⟨fun r st' h => serverExecute_stats hw st action target params now r st' h,
    ?_, fun p v e h => ?_⟩
  · cases hf : Message.fromDict now d with
    | error e => simp [handleHttpRequest, hf]
    | ok m =>
      cases hx : serverExecute hw st m.action m.target m.params now with
      | ok pr =>
        obtain ⟨r, st'⟩ := pr
        simp [handleHttpRequest, hf, hx]
      | error e => simp [handleHttpRequest, hf, hx]
  · simp [gpioSetOp, h]

/-- Witness for `c6_stats_discipline`: one successful gpio set bumps both
message counters from 0 to 1 and leaves errors at 0. -/
theorem c6_stats_discipline_witness :
    (Stats.mk 1 1 0).messagesSent = stats0.messagesSent + 1 ∧
    (Stats.mk 1 1 0).messagesReceived = stats0.messagesReceived + 1 ∧
    stats0.errors ≤ (Stats.mk 1 1 0).errors :=
  (c6_stats_discipline oracleOk stats0 0 "set" "gpio"
    [("pin", PyValue.int 17), ("value", PyValue.int 1)] c6ValidationFailure).1
    (PyValue.bool true) (Stats.mk 1 1 0) rfl

/-! ## Hex-digit lemmas shared by C7 and C8 -/

/-- Characters Python's `"%x"` may produce. -/
def isHexChar (c : Char) : Bool :=
  (48 ≤ c.toNat && c.toNat ≤ 57) || (97 ≤ c.toNat && c.toNat ≤ 102)

theorem hexAux_mem_lt : ∀ (fuel n d : Nat), d ∈ hexAux fuel n → d < 16 := by
  intro fuel
  induction fuel with
  | zero => intro n d hd; simp [hexAux] at hd
  | succ f ih =>
    intro n d hd
    by_cases hn : n = 0
    · simp [hexAux, hn] at hd
    · simp only [hexAux, if_neg hn, List.mem_cons] at hd
      rcases hd with h1 | h2
      · subst h1; exact Nat.mod_lt _ (by norm_num)
      · exact ih _ _ h2

theorem hexAux_ne_nil (fuel n : Nat) (hf : fuel ≠ 0) (hn : n ≠ 0) :
    hexAux fuel n ≠ [] := by
  obtain ⟨f, rfl⟩ := Nat.exists_eq_succ_of_ne_zero hf
  simp [hexAux, hn]

theorem pyHexBE_mem_lt (n d : Nat) (hd : d ∈ pyHexBE n) : d < 16 := by
  unfold pyHexBE at hd
  by_cases hn : n = 0
  · simp [hn] at hd; omega
  · rw [if_neg hn, List.mem_reverse] at hd
    exact hexAux_mem_lt n n d hd

theorem pyHexBE_ne_nil (n : Nat) : pyHexBE n ≠ [] := by
  unfold pyHexBE
  by_cases hn : n = 0
  · simp [hn]
  · rw [if_neg hn]
    intro hcon
    exact hexAux_ne_nil n n hn hn (by simpa [pyHexLE] using
      (List.reverse_eq_nil_iff.mp hcon))

theorem ofDigits_hexAux : ∀ (fuel n : Nat), n ≤ fuel →
    Nat.ofDigits 16 (hexAux fuel n) = n := by
  intro fuel
  induction fuel with
  | zero => intro n hn; interval_cases n; simp [hexAux]
  | succ f ih =>
    intro n hn
    by_cases h0 : n = 0
    · simp [hexAux, h0]
    · have hdiv : n / 16 ≤ f := by
        have : n / 16 < n := Nat.div_lt_self (Nat.pos_of_ne_zero h0) (by norm_num)
        omega
      simp only [hexAux, if_neg h0, Nat.ofDigits_cons, ih (n / 16) hdiv]
      have := Nat.mod_add_div n 16
      omega

theorem ofDigits_lt_pow : ∀ (L : List Nat), (∀ d ∈ L, d < 16) →
    Nat.ofDigits 16 L < 16 ^ L.length := by
  intro L
  induction L with
  | nil => simp
  | cons d t ih =>
    intro hb
    have hd : d < 16 := hb d (List.mem_cons_self _ _)
    have ht := ih fun x hx => hb x (List.mem_cons_of_mem _ hx)
    rw [Nat.ofDigits_cons, List.length_cons, pow_succ]
    omega

theorem digitLE_of_val_le : ∀ (l1 l2 : List Nat), l1.length = l2.length →
    (∀ d ∈ l1, d < 16) → (∀ d ∈ l2, d < 16) →
    Nat.ofDigits 16 l1.reverse ≤ Nat.ofDigits 16 l2.reverse →
    digitLE l1 l2 = true := by
  intro l1
  induction l1 with
  | nil => intro l2 _ _ _ _; rfl
  | cons x xs ih =>
    intro l2 hlen hb1 hb2 hval
    cases l2 with
    | nil => simp at hlen
    | cons y ys =>
      have hlen' : xs.length = ys.length := by simpa using hlen
      have hx : x < 16 := hb1 x (List.mem_cons_self _ _)
      have hy : y < 16 := hb2 y (List.mem_cons_self _ _)
      have hxs : ∀ d ∈ xs, d < 16 := fun d hd => hb1 d (List.mem_cons_of_mem _ hd)
      have hys : ∀ d ∈ ys, d < 16 := fun d hd => hb2 d (List.mem_cons_of_mem _ hd)
      have hv1 : Nat.ofDigits 16 (x :: xs).reverse
          = Nat.ofDigits 16 xs.reverse + 16 ^ xs.length * x := by
        rw [List.reverse_cons, Nat.ofDigits_append]
        simp
      have hv2 : Nat.ofDigits 16 (y :: ys).reverse
          = Nat.ofDigits 16 ys.reverse + 16 ^ ys.length * y := by
        rw [List.reverse_cons, Nat.ofDigits_append]
        simp
      rcases Nat.lt_trichotomy x y with hxy | hxy | hxy
      · simp [digitLE, hxy]
      · subst hxy
        have htail : Nat.ofDigits 16 xs.reverse ≤ Nat.ofDigits 16 ys.reverse := by
          rw [hv1, hv2, hlen'] at hval
          omega
        simp only [digitLE, Nat.lt_irrefl, if_neg]
        exact ih ys hlen' hxs hys htail
      · exfalso
        have hV2 : Nat.ofDigits 16 ys.reverse < 16 ^ ys.length := by
          have := ofDigits_lt_pow ys.reverse
            (fun d hd => hys d (List.mem_reverse.mp hd))
          simpa using this
        have h1 : Nat.ofDigits 16 ys.reverse + 16 ^ ys.length * y
            < 16 ^ ys.length * (y + 1) := by
          rw [Nat.mul_succ]
          omega
        have h2 : 16 ^ ys.length * (y + 1) ≤ 16 ^ ys.length * x :=
          Nat.mul_le_mul_left _ hxy
        have h3 : 16 ^ ys.length * x
            ≤ Nat.ofDigits 16 xs.reverse + 16 ^ xs.length * x := by
          rw [hlen']
          exact Nat.le_add_left _ _
        rw [hv1, hv2] at hval
        omega

theorem hexDigitChar_lt_iff :
    ∀ a, a < 16 → ∀ b, b < 16 →
      ((hexDigitChar a).toNat < (hexDigitChar b).toNat ↔ a < b) := by decide

theorem isHexChar_hexDigitChar : ∀ d, d < 16 → isHexChar (hexDigitChar d) = true := by
  decide

theorem pyStrLE_map_hexChar : ∀ (l1 l2 : List Nat),
    (∀ d ∈ l1, d < 16) → (∀ d ∈ l2, d < 16) →
    pyStrLE (l1.map hexDigitChar) (l2.map hexDigitChar) = digitLE l1 l2 := by
  intro l1
  induction l1 with
  | nil => intro l2 _ _; rfl
  | cons x xs ih =>
    intro l2 hb1 hb2
    cases l2 with
    | nil => rfl
    | cons y ys =>
      have hx : x < 16 := hb1 x (List.mem_cons_self _ _)
      have hy : y < 16 := hb2 y (List.mem_cons_self _ _)
      have hxs : ∀ d ∈ xs, d < 16 := fun d hd => hb1 d (List.mem_cons_of_mem _ hd)
      have hys : ∀ d ∈ ys, d < 16 := fun d hd => hb2 d (List.mem_cons_of_mem _ hd)
      simp only [List.map_cons, pyStrLE, digitLE]
      by_cases hxy : x < y
      · rw [if_pos ((hexDigitChar_lt_iff x hx y hy).mpr hxy), if_pos hxy]
      · rw [if_neg (fun hc => hxy ((hexDigitChar_lt_iff x hx y hy).mp hc)),
          if_neg hxy]
        by_cases hyx : y < x
        · rw [if_pos ((hexDigitChar_lt_iff y hy x hx).mpr hyx), if_pos hyx]
        · rw [if_neg (fun hc => hyx ((hexDigitChar_lt_iff y hy x hx).mp hc)),
            if_neg hyx]
          exact ih ys hxs hys

theorem ofDigits_reverse_pyHexBE (n : Nat) :
    Nat.ofDigits 16 (pyHexBE n).reverse = n := by
  unfold pyHexBE
  by_cases hn : n = 0
  · simp [hn]
  · rw [if_neg hn, List.reverse_reverse]
    exact ofDigits_hexAux n n le_rfl

theorem hexAux_length_of_bounds :
    ∀ (fuel n k : Nat), n ≤ fuel → 16 ^ k ≤ n → n < 16 ^ (k + 1) →
      (hexAux fuel n).length = k + 1 := by
  intro fuel
  induction fuel with
  | zero =>
    intro n k hn hk _
    have h1 : 1 ≤ n := le_trans (Nat.one_le_pow _ _ (by norm_num)) hk
    omega
  | succ f ih =>
    intro n k hn hk hlt
    have hn0 : n ≠ 0 := by
      have := Nat.one_le_pow k 16 (by norm_num)
      omega
    simp only [hexAux, if_neg hn0, List.length_cons]
    cases k with
    | zero =>
      have hzero : n / 16 = 0 := Nat.div_eq_of_lt (by simpa using hlt)
      rw [hzero]
      cases f <;> simp [hexAux]
    | succ l =>
      have hdiv_le : n / 16 ≤ f := by
        have : n / 16 < n := Nat.div_lt_self (by omega) (by norm_num)
        omega
      have hlo : 16 ^ l ≤ n / 16 := by
        rw [Nat.le_div_iff_mul_le (by norm_num)]
        calc 16 ^ l * 16 = 16 ^ (l + 1) := by ring
        _ ≤ n := hk
      have hhi : n / 16 < 16 ^ (l + 1) := by
        rw [Nat.div_lt_iff_lt_mul (by norm_num)]
        calc n < 16 ^ (l + 1 + 1) := hlt
        _ = 16 ^ (l + 1) * 16 := by ring
      rw [ih (n / 16) l hdiv_le hlo hhi]

theorem pyHexBE_length_of_bounds (k t : Nat)
    (h1 : 16 ^ k ≤ t) (h2 : t < 16 ^ (k + 1)) :
    (pyHexBE t).length = k + 1 := by
  have ht0 : t ≠ 0 := by
    have := Nat.one_le_pow k 16 (by norm_num)
    omega
  unfold pyHexBE
  rw [if_neg ht0, List.length_reverse]
  exact hexAux_length_of_bounds t t k le_rfl h1 h2

theorem generateId_monotone_of_length_eq (t1 t2 : Nat) (hle : t1 ≤ t2)
    (hlen : (pyHexBE t1).length = (pyHexBE t2).length) :
    pyStrLE (generateId t1).data (generateId t2).data = true := by
  have hb1 := pyHexBE_mem_lt t1
  have hb2 := pyHexBE_mem_lt t2
  show pyStrLE ((pyHexBE t1).map hexDigitChar) ((pyHexBE t2).map hexDigitChar) = true
  rw [pyStrLE_map_hexChar _ _ hb1 hb2]
  exact digitLE_of_val_le _ _ hlen hb1 hb2
    (by rw [ofDigits_reverse_pyHexBE, ofDigits_reverse_pyHexBE]; exact hle)

/-! ## Claim C7 -/

/-- Claim C7 (confirmed): constructing an envelope with `params`, `id`
and `timestamp` omitted fills them with well-typed non-null defaults —
`params` becomes the empty map, `id` a non-empty generated lowercase hex
string, `timestamp` the current wall-clock reading — while passing any
keyword the dataclass does not declare raises a `TypeError` instead of
being accepted. -/
theorem c7_envelope_defaults (now : Nat) (a t : String) :
    (Message.fromDict now
        { action := some a, target := some t, params := Option.none,
          id := Option.none, timestamp := Option.none, extraKeys := [] } =
      .ok { action := a, target := t, params := [],
            id := generateId now, timestamp := now }) ∧
    (generateId now).data ≠ [] ∧
    (generateId now).data.all isHexChar = true ∧
    (∀ d : RawDict, d.extraKeys ≠ [] → ∃ e, Message.fromDict now d = .error e) := by
  refine ⟨rfl, ?_, ?_, fun d hd => ?_⟩
  · show genIdChars now ≠ []
    unfold genIdChars
    intro hcon
    exact pyHexBE_ne_nil now (List.map_eq_nil_iff.mp hcon)
  · show (genIdChars now).all isHexChar = true
    rw [List.all_eq_true]
    intro c hc
    obtain ⟨d, hd, rfl⟩ := List.mem_map.mp hc
    exact isHexChar_hexDigitChar d (pyHexBE_mem_lt now d hd)
  · rcases hex : d.extraKeys with _ | ⟨k, ks⟩
    · exact absurd hex hd
    · refine ⟨"TypeError: unexpected keyword argument " ++ k, ?_⟩
      simp [Message.fromDict, hex]

/-- Witness for `c7_envelope_defaults`: the unknown keyword `"mode"` is
rejected at a concrete construction. -/
theorem c7_envelope_defaults_witness :
    ∃ e, Message.fromDict 7
      { action := some "set", target := some "gpio", params := Option.none,
        id := Option.none, timestamp := Option.none, extraKeys := ["mode"] } =
      .error e :=
  (c7_envelope_defaults 7 "set" "gpio").2.2.2 _ (by simp)

/-! ## Claim C8 -/

/-- Claim C8 counterexample: the generated id is indeed the hex encoding
of the microsecond clock, but that encoding is NOT lexicographically
sortable: at clock readings 15 and 16 the earlier id `"f"` compares
strictly greater than the later id `"10"` under string comparison. -/
theorem c8_counterexample :
    15 ≤ 16 ∧
    (mkMessage 15 "set" "gpio" Option.none Option.none Option.none).id =
      generateId 15 ∧
    pyStrLE (generateId 15).data (generateId 16).data = false :=
  ⟨by norm_num, rfl, by decide⟩

/-- Claim C8 (amended): a generated id is the unpadded lowercase hex
encoding of the microsecond wall-clock reading, and id order agrees with
construction order under Python string comparison whenever the two
encodings have the same number of digits — in particular for any two
envelopes of the same microsecond, and for any two clock readings both
within `[16^12, 16^13)` microseconds (about December 1978 through 2112),
where the encoding keeps a constant 13-digit length; across a
digit-length change the encoding is not lexicographically monotone. -/
theorem c8_id_monotone_equal_length (t1 t2 : Nat)
    (hle : t1 ≤ t2) (hlen : (pyHexBE t1).length = (pyHexBE t2).length) :
    pyStrLE (generateId t1).data (generateId t2).data = true ∧
    (∀ a t p ts, (mkMessage t1 a t p Option.none ts).id = generateId t1) ∧
    (∀ u1 u2 : Nat, 16 ^ 12 ≤ u1 → u1 ≤ u2 → u2 < 16 ^ 13 →
      pyStrLE (generateId u1).data (generateId u2).data = true) := by
  refine ⟨generateId_monotone_of_length_eq t1 t2 hle hlen,
    fun a t p ts => rfl, fun u1 u2 h1 h2 h3 => ?_⟩
  have l1 : (pyHexBE u1).length = 13 :=
    pyHexBE_length_of_bounds 12 u1 h1 (lt_of_le_of_lt h2 h3)
  have l2 : (pyHexBE u2).length = 13 :=
    pyHexBE_length_of_bounds 12 u2 (le_trans h1 h2) h3
  exact generateId_monotone_of_length_eq u1 u2 h2 (by rw [l1, l2])

/-- Witness for `c8_id_monotone_equal_length` at the readings 100 and 200
(hex `"64"` and `"c8"`, both two digits). -/
theorem c8_id_monotone_witness :
    pyStrLE (generateId 100).data (generateId 200).data = true :=
  (c8_id_monotone_equal_length 100 200 (by norm_num) (by decide)).1

/-! ## Claim C5 -/

/-- A random stream that always yields the byte 0. -/
def c5ZeroEnv : SimEnv := ⟨fun _ => 0, 0, 0, 0, 0⟩

/-- Claim C5 counterexample: in the legacy `hardware.py` `I2CSimulator`,
writing `[0x27]` to device `0x76` register `0xF4` and then reading that
register back with length 1 does NOT return `[0x27]`: `read` never
consults the stored `memory` and returns synthetic data — with a random
stream yielding 0, the read returns `[0x00]`. -/
theorem c5_counterexample :
    (do
      let st1 ← I2CSimulator.write i2cSim0 0x76 0xF4 [0x27]
      I2CSimulator.read st1 c5ZeroEnv 0x76 0xF4 1) = .ok [0x00] ∧
    ([0x00] : List Nat) ≠ [0x27] :=
  ⟨rfl, by decide⟩

/-- Claim C5 (amended): the package simulator (`SimulatedI2CInterface`)
does satisfy write-then-read consistency — its `write` encodes the
register as the first data byte, and after `write device (r :: v)` every
read of register `r` with length ≤ |v| returns the stored prefix, for
every random stream; the claim's scenario holds there with write data
`[0xF4, 0x27]`. The legacy `I2CSimulator` (`hardware.py`) stores writes
in `memory` but its `read` ignores the store, so the round-trip fails
there. -/
theorem c5_roundtrip_package_simulator (st : SimI2CState) (env : SimEnv)
    (device r : Nat) (value : List Nat) (length : Nat)
    (hinit : st.initialized = true) (hdev : device ∈ i2cDevices)
    (hlen : length ≤ value.length) :
    (SimulatedI2CInterface.write st device (r :: value)).1 = true ∧
    SimulatedI2CInterface.read
        (SimulatedI2CInterface.write st device (r :: value)).2 env device r length =
      .ok (value.take length) := by
  constructor
  · simp [SimulatedI2CInterface.write, hinit, hdev]
  · simp [SimulatedI2CInterface.write, SimulatedI2CInterface.read,
      simI2CGenerate, hinit, hdev, hlen]

/-- Witness for `c5_roundtrip_package_simulator`: the claim's concrete
scenario on the package simulator. -/
theorem c5_roundtrip_witness :
    (SimulatedI2CInterface.write simI2CInit 0x76 [0xF4, 0x27]).1 = true ∧
    SimulatedI2CInterface.read
        (SimulatedI2CInterface.write simI2CInit 0x76 [0xF4, 0x27]).2 c5ZeroEnv
        0x76 0xF4 1 = .ok [0x27] :=
  c5_roundtrip_package_simulator simI2CInit c5ZeroEnv 0x76 0xF4 [0x27] 1
    rfl (by decide) (by decide)

/-! ## Claim C9 -/

/-- A random stream for the UART scenario (never consulted on the FIFO
path). -/
def c9Env : SimEnv := ⟨fun _ => 0, 0, 0, 0, 0⟩

/-- The legacy simulator's buffers after writing `b"AB"` then `b"CD"` to
one port. -/
def c9Bufs : UARTBuffers :=
  UARTSimulator.write
    (UARTSimulator.write uartSim0 "/dev/ttyUSB0" [0x41, 0x42])
    "/dev/ttyUSB0" [0x43, 0x44]

/-- The package simulator's state after the same two writes. -/
def c9PkgSt : SimUARTState :=
  (SimulatedUARTInterface.write
    (SimulatedUARTInterface.write simUART0 "/dev/ttyUSB0" [0x41, 0x42]).2
    "/dev/ttyUSB0" [0x43, 0x44]).2

/-- Claim C9 (confirmed): both UART simulators are per-port FIFOs —
whenever the port's buffer holds at least `n` bytes, a read pops exactly
the first `n` bytes and leaves the rest; and in the claim's scenario,
writing `b"AB"` then `b"CD"` and reading length 3 returns `b"ABC"`, after
which a read of length 1 returns `b"D"` — in the legacy simulator and in
the package simulator alike. -/
theorem c9_uart_fifo :
    (∀ (bufs : UARTBuffers) (env : SimEnv) (port : String) (n : Nat),
      n ≤ (bufs port).length →
      UARTSimulator.read bufs env port n =
        ((bufs port).take n,
         fun p => if p = port then (bufs port).drop n else bufs p)) ∧
    ((UARTSimulator.read c9Bufs c9Env "/dev/ttyUSB0" 3).1 = [0x41, 0x42, 0x43] ∧
     (UARTSimulator.read (UARTSimulator.read c9Bufs c9Env "/dev/ttyUSB0" 3).2
        c9Env "/dev/ttyUSB0" 1).1 = [0x44]) ∧
    ((SimulatedUARTInterface.read c9PkgSt "/dev/ttyUSB0" 3).1 = [0x41, 0x42, 0x43] ∧
     (SimulatedUARTInterface.read
        (SimulatedUARTInterface.read c9PkgSt "/dev/ttyUSB0" 3).2
        "/dev/ttyUSB0" 1).1 = [0x44]) := by
  refine ⟨fun bufs env port n h => ?_, ⟨rfl, rfl⟩, ⟨rfl, rfl⟩⟩
  simp [UARTSimulator.read, h]

/-- Witness for `c9_uart_fifo`: the general FIFO pop at a concrete
three-byte buffer. -/
theorem c9_uart_fifo_witness :
    UARTSimulator.read (fun _ => [1, 2, 3]) c9Env "p" 2 =
      (([1, 2, 3] : List Nat).take 2,
       fun p => if p = "p" then ([1, 2, 3] : List Nat).drop 2
                else [1, 2, 3]) :=
  c9_uart_fifo.1 (fun _ => [1, 2, 3]) c9Env "p" 2 (by norm_num)

/-! ## Claim C10 -/

set_option maxRecDepth 4096 in
theorem xor255_twice (b : Nat) (hb : b < 256) :
    (((b ^^^ 0xFF) &&& 0xFF) ^^^ 0xFF) &&& 0xFF = b := by
  revert hb
  revert b
  decide

/-- Claim C10 (confirmed): the SPI simulator's `transfer` preserves the
length of its input, complements every byte (xor 0xFF, masked to a
byte), and — being deterministic and stateless — is an involution on
byte strings: transferring a transfer returns the original data. -/
theorem c10_spi_transfer (data : List Nat) :
    (SPISimulator.transfer data).length = data.length ∧
    (∀ i : Nat, (SPISimulator.transfer data)[i]? =
      (data[i]?).map fun b => (b ^^^ 0xFF) &&& 0xFF) ∧
    ((∀ b ∈ data, b < 256) →
      SPISimulator.transfer (SPISimulator.transfer data) = data) := by
  refine ⟨List.length_map _ _, fun i => ?_, fun hb => ?_⟩
  · simp [SPISimulator.transfer]
  · induction data with
    | nil => rfl
    | cons d t ih =>
      have hd : d < 256 := hb d (List.mem_cons_self _ _)
      have ht := ih fun x hx => hb x (List.mem_cons_of_mem _ hx)
      simp only [SPISimulator.transfer, List.map_cons, List.cons.injEq] at ht ⊢
      exact ⟨xor255_twice d hd, ht⟩

/-- Witness for `c10_spi_transfer`: involution at a concrete byte string. -/
theorem c10_spi_transfer_witness :
    SPISimulator.transfer (SPISimulator.transfer [0x12, 0xAB, 0x00, 0xFF]) =
      [0x12, 0xAB, 0x00, 0xFF] :=
  (c10_spi_transfer [0x12, 0xAB, 0x00, 0xFF]).2.2 (by decide)

/-! ## Claim C4 -/

end EDPMT
